import Mathlib

/-!
Verification of the bridgeview-ais repository: a shallow embedding, in Lean, of
the WebSocket gateway (`server.js`), the bridge-crossing detector and geo
utilities of the vessel-notifier service, the notifier's reconnect backoff,
and the UI stream hook's timestamp normalization, together with theorems about
the properties the documentation states for them.

Numbers: JavaScript numbers are modelled as `ℚ` (all the code's arithmetic on
them is +, -, *, abs and comparisons, which are exact on the floats the feed
carries and agree with `ℚ`); millisecond clock values (`Date.now()`) as `ℤ`;
`Infinity` (the previous distance of a brand-new vessel) via an `Option`-style
comparison that is always true. JavaScript `Map`s are modelled as association
lists with `Map.set` / `Map.get` / `Map.delete` semantics.
-/

namespace BridgeviewAIS

/-! ## Association-list model of a JavaScript `Map` -/

/-- `map.get(k)` : the value at the first (unique) occurrence of key `k`. -/
def alookup {α : Type} (k : ℕ) : List (ℕ × α) → Option α
  | [] => none
  | (k', v) :: r => if k = k' then some v else alookup k r

/-- `map.set(k, v)` : replace in place, or append a fresh binding. -/
def aset {α : Type} (k : ℕ) (v : α) : List (ℕ × α) → List (ℕ × α)
  | [] => [(k, v)]
  | (k', v') :: r => if k = k' then (k, v) :: r else (k', v') :: aset k v r

theorem alookup_aset_self {α : Type} (k : ℕ) (v : α) (m : List (ℕ × α)) :
    alookup k (aset k v m) = some v := by
  induction m with
  | nil => simp [aset, alookup]
  | cons p r ih =>
    by_cases h : k = p.1
    · simp [aset, h, alookup]
    · simp [aset, h, alookup, ih]

theorem alookup_aset_ne {α : Type} {k k' : ℕ} (v : α) (m : List (ℕ × α))
    (h : k' ≠ k) : alookup k' (aset k v m) = alookup k' m := by
  induction m with
  | nil => simp [aset, alookup, h]
  | cons p r ih =>
    by_cases hk : k = p.1
    · subst hk
      simp [aset, alookup, h, ih]
    · by_cases hk' : k' = p.1 <;> simp [aset, alookup, hk, hk', ih]

theorem length_aset_of_mem {α : Type} {k : ℕ} (v : α) (m : List (ℕ × α))
    (h : (alookup k m).isSome) : (aset k v m).length = m.length := by
  induction m with
  | nil => simp [alookup] at h
  | cons p r ih =>
    by_cases hk : k = p.1
    · simp [aset, hk]
    · simp only [alookup, hk, if_neg] at h
      simp [aset, hk, ih h]

theorem alookup_mem {α : Type} {k : ℕ} {v : α} {m : List (ℕ × α)}
    (h : alookup k m = some v) : (k, v) ∈ m := by
  induction m with
  | nil => simp [alookup] at h
  | cons p rest ih =>
    obtain ⟨pk, pv⟩ := p
    by_cases hk : k = pk
    · rw [alookup, if_pos hk] at h
      cases h
      subst hk
      exact List.mem_cons_self _ _
    · rw [alookup, if_neg hk] at h
      exact List.mem_cons_of_mem _ (ih h)

theorem forall_aset {α : Type} {P : ℕ × α → Prop} {k : ℕ} {v : α}
    {m : List (ℕ × α)} (hm : ∀ p ∈ m, P p) (hv : P (k, v)) :
    ∀ p ∈ aset k v m, P p := by
  induction m with
  | nil => simpa [aset]
  | cons q r ih =>
    obtain ⟨qk, qv⟩ := q
    intro p hp
    by_cases hk : k = qk
    · rw [aset, if_pos hk] at hp
      rcases List.mem_cons.mp hp with hp | hp
      · subst hp; exact hv
      · exact hm p (List.mem_cons_of_mem _ hp)
    · rw [aset, if_neg hk] at hp
      rcases List.mem_cons.mp hp with hp | hp
      · subst hp; exact hm (qk, qv) (List.mem_cons_self _ _)
      · exact ih (fun u hu => hm u (List.mem_cons_of_mem _ hu)) p hp

/-! ## Geo utilities (`services/vessel-notifier/src/geo.ts`)

`getDirection` is embedded exactly; the Haversine distance itself is
transcendental (sin/cos/atan2), so the detector theorems below are stated for
an arbitrary distance function `dist : ℚ → ℚ → ℚ` standing for
`distanceToBridge`, which makes them hold for the source's instantiation in
particular. -/

/-- `BRIDGE_CENTER.lat` -/
def BRIDGE_CENTER_lat : ℚ := 42.9982

/-- `CLOSE_APPROACH_DISTANCE_NM` -/
def CLOSE_APPROACH_DISTANCE_NM : ℚ := 0.5

/-- Truncation toward zero, as JavaScript's `%` uses. -/
def jsTrunc (q : ℚ) : ℤ := if 0 ≤ q then ⌊q⌋ else ⌈q⌉

/-- JavaScript's remainder operator `a % b` on numbers. -/
def jsRemainder (a b : ℚ) : ℚ := a - b * (jsTrunc (a / b) : ℚ)

/-- `((cog % 360) + 360) % 360` from `getDirection`. -/
def normalizeHeading (cog : ℚ) : ℚ :=
  jsRemainder (jsRemainder cog 360 + 360) 360

inductive Direction where
  | northbound
  | southbound
  deriving DecidableEq, Repr

/-- `getDirection(cog, lat)` from `geo.ts`. -/
def getDirection (cog lat : ℚ) : Direction :=
  let heading := normalizeHeading cog
  if heading > 315 ∨ heading < 45 then .northbound
  else if heading > 135 ∧ heading < 225 then .southbound
  else if lat > BRIDGE_CENTER_lat then .southbound else .northbound

theorem jsRemainder_nonneg_lt (a : ℚ) (ha : 0 ≤ a) :
    0 ≤ jsRemainder a 360 ∧ jsRemainder a 360 < 360 := by
  have hq : (0 : ℚ) ≤ a / 360 := by positivity
  have htr : jsTrunc (a / 360) = ⌊a / 360⌋ := if_pos hq
  have h1 : (⌊a / 360⌋ : ℚ) ≤ a / 360 := Int.floor_le _
  have h2 : a / 360 < (⌊a / 360⌋ : ℚ) + 1 := Int.lt_floor_add_one _
  constructor
  · have := mul_le_mul_of_nonneg_left h1 (by norm_num : (0:ℚ) ≤ 360)
    simp only [jsRemainder, htr]
    nlinarith
  · have := mul_lt_mul_of_pos_left h2 (by norm_num : (0:ℚ) < 360)
    simp only [jsRemainder, htr]
    nlinarith

theorem neg_lt_jsRemainder (a : ℚ) : -360 < jsRemainder a 360 := by
  by_cases hq : (0 : ℚ) ≤ a / 360
  · have htr : jsTrunc (a / 360) = ⌊a / 360⌋ := if_pos hq
    have h2 : a / 360 < (⌊a / 360⌋ : ℚ) + 1 := Int.lt_floor_add_one _
    have h1 : (⌊a / 360⌋ : ℚ) ≤ a / 360 := Int.floor_le _
    simp only [jsRemainder, htr]
    nlinarith
  · have htr : jsTrunc (a / 360) = ⌈a / 360⌉ := if_neg hq
    have h1 : a / 360 ≤ (⌈a / 360⌉ : ℚ) := Int.le_ceil _
    have h2 : (⌈a / 360⌉ : ℚ) < a / 360 + 1 := Int.ceil_lt_add_one _
    simp only [jsRemainder, htr]
    nlinarith

theorem normalizeHeading_bounds (cog : ℚ) :
    0 ≤ normalizeHeading cog ∧ normalizeHeading cog < 360 := by
  have h := neg_lt_jsRemainder cog
  exact jsRemainder_nonneg_lt (jsRemainder cog 360 + 360) (by linarith)

/-! ## Feed messages (`services/vessel-notifier/src/types.ts`)

Fields the runtime may omit (the detector guards them with `?.` or a JS
truthiness test) are `Option`s; `undefined` is `none`. -/

structure PositionReport where
  Cog : ℚ
  Latitude : ℚ
  Longitude : ℚ
  NavigationalStatus : ℤ
  Sog : ℚ
  TrueHeading : ℚ
  UserID : ℕ
  deriving DecidableEq, Repr

structure Dimension where
  A : ℚ
  B : ℚ
  C : ℚ
  D : ℚ
  deriving DecidableEq, Repr

structure ShipStaticData where
  CallSign : Option String
  Destination : Option String
  Dimension : Option Dimension
  ImoNumber : Option ℕ
  Name : Option String
  «Type» : Option ℤ
  UserID : Option ℕ
  deriving DecidableEq, Repr

structure AISMetaData where
  MMSI : ℕ
  ShipName : Option String
  latitude : ℚ
  longitude : ℚ
  time_utc : String
  deriving DecidableEq, Repr

/-- `AISMessage`: `Message.PositionReport` / `Message.ShipStaticData` flattened. -/
structure AISMessage where
  PositionReport : Option PositionReport
  ShipStaticData : Option ShipStaticData
  MetaData : AISMetaData
  deriving DecidableEq, Repr

structure TrackedVessel where
  mmsi : ℕ
  name : String
  latitude : ℚ
  longitude : ℚ
  cog : ℚ
  sog : ℚ
  distanceToBridge : ℚ
  lastUpdate : ℤ
  destination : Option String
  shipType : Option ℤ
  length : Option ℚ
  deriving DecidableEq, Repr

structure BridgeCrossingEvent where
  mmsi : ℕ
  name : String
  speed : ℚ
  course : ℚ
  distance : ℚ
  direction : Direction
  timestamp : ℤ
  destination : Option String
  shipType : Option ℤ
  length : Option ℚ
  deriving DecidableEq, Repr

/-! ## Bridge crossing detector (`services/vessel-notifier/src/bridge-detector.ts`) -/

structure BridgeDetectorConfig where
  thresholdNM : ℚ
  cooldownMs : ℤ
  staleTimeoutMs : ℤ
  deriving DecidableEq, Repr

/-- `DEFAULT_CONFIG` of the detector. -/
def DEFAULT_CONFIG : BridgeDetectorConfig :=
  { thresholdNM := CLOSE_APPROACH_DISTANCE_NM
    cooldownMs := 30 * 60 * 1000
    staleTimeoutMs := 15 * 60 * 1000 }

/-- The two `Map`s held by a `BridgeDetector` instance. -/
structure DetectorState where
  vessels : List (ℕ × TrackedVessel)
  notified : List (ℕ × ℤ)
  deriving DecidableEq, Repr

def DetectorState.initial : DetectorState := ⟨[], []⟩

/-- JS `a || b` on an optional string: `b` when `a` is `undefined` or `""`. -/
def jsStrOr (a : Option String) (b : String) : String :=
  match a with
  | some s => if s = "" then b else s
  | none => b

/-- `previousDistance > thresholdNM`, where `previousDistance` is `Infinity`
for a vessel with no existing record. -/
def previousDistanceGT (threshold : ℚ) (existing : Option TrackedVessel) : Bool :=
  match existing with
  | none => true
  | some v => threshold < v.distanceToBridge

/-- The `TrackedVessel` literal built by `processPositionReport`. -/
def upsertedVessel (dist : ℚ → ℚ → ℚ) (now : ℤ) (msg : AISMessage)
    (report : PositionReport) (existing : Option TrackedVessel) : TrackedVessel :=
  { mmsi := msg.MetaData.MMSI
    name := jsStrOr (existing.map (·.name))
      (jsStrOr (msg.MetaData.ShipName.map (·.trim))
        ("MMSI " ++ toString msg.MetaData.MMSI))
    latitude := report.Latitude
    longitude := report.Longitude
    cog := report.Cog
    sog := report.Sog
    distanceToBridge := dist report.Latitude report.Longitude
    lastUpdate := now
    destination := existing.bind (·.destination)
    shipType := existing.bind (·.shipType)
    length := existing.bind (·.length) }

/-- The `BridgeCrossingEvent` literal returned on a detected crossing. -/
def crossingEventOf (dist : ℚ → ℚ → ℚ) (now : ℤ) (msg : AISMessage)
    (report : PositionReport) (vessel : TrackedVessel) : BridgeCrossingEvent :=
  { mmsi := msg.MetaData.MMSI
    name := vessel.name
    speed := report.Sog
    course := report.Cog
    distance := dist report.Latitude report.Longitude
    direction := getDirection report.Cog report.Latitude
    timestamp := now
    destination := vessel.destination
    shipType := vessel.shipType
    length := vessel.length }

/-- `BridgeDetector.processPositionReport`. `dist` stands for
`distanceToBridge`, `now` for `Date.now()`. -/
def processPositionReport (dist : ℚ → ℚ → ℚ) (cfg : BridgeDetectorConfig)
    (now : ℤ) (msg : AISMessage) (report : PositionReport)
    (st : DetectorState) : DetectorState × Option BridgeCrossingEvent :=
  let mmsi := msg.MetaData.MMSI
  let lat := report.Latitude
  let lon := report.Longitude
  if lat = 0 ∧ lon = 0 then (st, none)
  else if lat < -90 ∨ lat > 90 ∨ lon < -180 ∨ lon > 180 then (st, none)
  else
    let distance := dist lat lon
    let existing := alookup mmsi st.vessels
    let vessel := upsertedVessel dist now msg report existing
    let vessels' := aset mmsi vessel st.vessels
    if previousDistanceGT cfg.thresholdNM existing
        ∧ distance ≤ cfg.thresholdNM
        ∧ (0.5 : ℚ) ≤ report.Sog then
      match alookup mmsi st.notified with
      | some lastNotified =>
        if lastNotified ≠ 0 ∧ now - lastNotified < cfg.cooldownMs then
          (⟨vessels', st.notified⟩, none)
        else
          (⟨vessels', aset mmsi now st.notified⟩,
            some (crossingEventOf dist now msg report vessel))
      | none =>
        (⟨vessels', aset mmsi now st.notified⟩,
          some (crossingEventOf dist now msg report vessel))
    else
      (⟨vessels', st.notified⟩, none)

/-- The record produced by `processStaticData`'s in-place merge. -/
def mergeStatic (data : ShipStaticData) (existing : TrackedVessel) : TrackedVessel :=
  let e1 := match data.Name with
    | some n => if n.trim ≠ "" then { existing with name := n.trim } else existing
    | none => existing
  let e2 := match data.Destination with
    | some d => if d.trim ≠ "" then { e1 with destination := some d.trim } else e1
    | none => e1
  let e3 := match data.«Type» with
    | some t => if t ≠ 0 then { e2 with shipType := some t } else e2
    | none => e2
  match data.Dimension with
  | some dim => { e3 with length := some (dim.A + dim.B) }
  | none => e3

/-- `BridgeDetector.processStaticData`. -/
def processStaticData (msg : AISMessage) (data : ShipStaticData)
    (st : DetectorState) : DetectorState :=
  let mmsi := msg.MetaData.MMSI
  match alookup mmsi st.vessels with
  | none => st
  | some existing => ⟨aset mmsi (mergeStatic data existing) st.vessels, st.notified⟩

/-- `BridgeDetector.processMessage`. -/
def processMessage (dist : ℚ → ℚ → ℚ) (cfg : BridgeDetectorConfig) (now : ℤ)
    (msg : AISMessage) (st : DetectorState) :
    DetectorState × Option BridgeCrossingEvent :=
  match msg.PositionReport with
  | some report => processPositionReport dist cfg now msg report st
  | none =>
    match msg.ShipStaticData with
    | some data => (processStaticData msg data st, none)
    | none => (st, none)

/-- `BridgeDetector.cleanupStale`: evict stale vessels and expired cooldown
records; returns the number of vessels removed. -/
def cleanupStale (cfg : BridgeDetectorConfig) (now : ℤ) (st : DetectorState) :
    DetectorState × ℕ :=
  let keep := st.vessels.filter fun p => decide (now - p.2.lastUpdate ≤ cfg.staleTimeoutMs)
  let notified' := st.notified.filter fun p => decide (now - p.2 ≤ cfg.cooldownMs)
  (⟨keep, notified'⟩, st.vessels.length - keep.length)

/-- `trackedCount` getter. -/
def trackedCount (st : DetectorState) : ℕ := st.vessels.length

/-- Feed a list of messages (each paired with its `Date.now()` clock value)
through `processMessage`, collecting the emitted crossing events. -/
def runMessages (dist : ℚ → ℚ → ℚ) (cfg : BridgeDetectorConfig) :
    List (ℤ × AISMessage) → DetectorState → DetectorState × List BridgeCrossingEvent
  | [], st => (st, [])
  | (now, msg) :: rest, st =>
    let r := processMessage dist cfg now msg st
    let rr := runMessages dist cfg rest r.1
    (rr.1, r.2.toList ++ rr.2)

/-- One call into a detector instance: a message arrival or a cleanup sweep. -/
inductive DetectorOp where
  | message (now : ℤ) (msg : AISMessage)
  | cleanup (now : ℤ)
  deriving DecidableEq, Repr

def runOps (dist : ℚ → ℚ → ℚ) (cfg : BridgeDetectorConfig) :
    List DetectorOp → DetectorState → DetectorState
  | [], st => st
  | .message now msg :: rest, st =>
    runOps dist cfg rest (processMessage dist cfg now msg st).1
  | .cleanup now :: rest, st =>
    runOps dist cfg rest (cleanupStale cfg now st).1

/-! ## Gateway subscription validation (`server.js`, `validateSubscription`) -/

/-- A `FilterMessageTypes` entry: the client may send numbers or strings. -/
inductive FilterMessageType where
  | num (n : ℤ)
  | str (s : String)
  deriving DecidableEq, Repr

/-- The client's first-message payload, as the gateway reads it: the two
whitelisted fields plus whatever other fields the client added (modelled as an
uninterpreted association list — the gateway never reads them). -/
structure ClientSubscription where
  BoundingBoxes : List (List (ℚ × ℚ))
  FilterMessageTypes : Option (List FilterMessageType)
  extraFields : List (String × String)
  deriving DecidableEq, Repr

/-- The sanitized object `validateSubscription` returns. -/
structure SanitizedSubscription where
  BoundingBoxes : List (List (ℚ × ℚ))
  FilterMessageTypes : Option (List FilterMessageType)
  deriving DecidableEq, Repr

/-- The augmented subscription sent as the upstream's first message. -/
structure UpstreamSubscription where
  BoundingBoxes : List (List (ℚ × ℚ))
  FilterMessageTypes : Option (List FilterMessageType)
  Apikey : String
  deriving DecidableEq, Repr

inductive SubscriptionError where
  | badBoxShape
  | coordsOutOfRange
  | areaTooLarge
  | tooManyBoxes
  | invalidMessageType
  deriving DecidableEq, Repr

/-- `VALID_BOUNDS.MAX_BOUNDING_BOX_AREA` -/
def MAX_BOUNDING_BOX_AREA : ℚ := 100

/-- The per-box checks of `validateSubscription`, in source order: shape,
coordinate bounds, then area. -/
def checkBox (box : List (ℚ × ℚ)) : Option SubscriptionError :=
  match box with
  | [(lat1, lon1), (lat2, lon2)] =>
    if lat1 < -90 ∨ lat1 > 90 ∨ lat2 < -90 ∨ lat2 > 90
        ∨ lon1 < -180 ∨ lon1 > 180 ∨ lon2 < -180 ∨ lon2 > 180 then
      some .coordsOutOfRange
    else if |lat2 - lat1| * |lon2 - lon1| > MAX_BOUNDING_BOX_AREA then
      some .areaTooLarge
    else none
  | _ => some .badBoxShape

/-- First error among the boxes, in order. -/
def checkBoxes : List (List (ℚ × ℚ)) → Option SubscriptionError
  | [] => none
  | box :: rest =>
    match checkBox box with
    | some e => some e
    | none => checkBoxes rest

/-- `allowedMessageTypes` / `allowedMessageNames` membership. -/
def validMessageType (t : FilterMessageType) : Bool :=
  match t with
  | .num n => n = 1 ∨ n = 2 ∨ n = 3 ∨ n = 18 ∨ n = 19 ∨ n = 27
  | .str s => s = "PositionReport" ∨ s = "ShipStaticData"
      ∨ s = "StandardClassBPositionReport" ∨ s = "ExtendedClassBPositionReport"

/-- `validateSubscription`: box checks, box-count cap, message-type checks,
then the field-whitelist sanitization. -/
def validateSubscription (sub : ClientSubscription) :
    Except SubscriptionError SanitizedSubscription :=
  match checkBoxes sub.BoundingBoxes with
  | some e => .error e
  | none =>
    if sub.BoundingBoxes.length > 5 then .error .tooManyBoxes
    else
      match sub.FilterMessageTypes with
      | some ts =>
        if ts.all validMessageType then
          .ok ⟨sub.BoundingBoxes, some ts⟩
        else .error .invalidMessageType
      | none => .ok ⟨sub.BoundingBoxes, none⟩

/-- `subscription.Apikey = API_KEY` followed by `upstream.send(...)` on open:
the upstream's first message for an accepted client payload. -/
def forwardedSubscription (apiKey : String) (sub : ClientSubscription) :
    Except SubscriptionError UpstreamSubscription :=
  (validateSubscription sub).map fun z =>
    ⟨z.BoundingBoxes, z.FilterMessageTypes, apiKey⟩

/-! ## Gateway connection lifecycle (`server.js`, per-IP slots)

An event model of one gateway process: `connectionsByIP` plus each
downstream connection's phase. `ws` delivers a `close` event for every socket
whose handlers were registered, including sockets the server itself closed,
so a server-side `close(...)` and the later `close` event are separate
transitions. -/

/-- `MAX_CONNECTIONS_PER_IP` -/
def MAX_CONNECTIONS_PER_IP : ℕ := 5

inductive ConnPhase where
  /-- admitted; no upstream yet (subscription timer pending) -/
  | awaiting
  /-- admitted; subscription validated, upstream opened -/
  | relaying
  /-- server called `close(...)` and already called `releaseIPConnection`
  (invalid JSON / auth failure / invalid subscription / subscription timeout);
  the socket's own `close` event has not fired yet -/
  | closingReleased
  /-- server called `close(...)` without releasing (message rate limit);
  the socket's own `close` event has not fired yet -/
  | closingUnreleased
  /-- the `close` event fired and its handler ran -/
  | closed
  /-- rejected over the per-IP cap: closed before any handler was registered -/
  | rejected
  deriving DecidableEq, Repr

structure GatewayConn where
  ip : ℕ
  phase : ConnPhase
  deriving DecidableEq, Repr

structure GatewayState where
  conns : List GatewayConn
  connectionsByIP : List (ℕ × ℕ)
  deriving DecidableEq, Repr

def GatewayState.initial : GatewayState := ⟨[], []⟩

def ipCount (st : GatewayState) (ip : ℕ) : ℕ :=
  (alookup ip st.connectionsByIP).getD 0

/-- `checkIPRateLimit(ip)` : `none` when over the cap, else the incremented map. -/
def checkIPRateLimit (ip : ℕ) (m : List (ℕ × ℕ)) : Option (List (ℕ × ℕ)) :=
  let count := (alookup ip m).getD 0
  if count ≥ MAX_CONNECTIONS_PER_IP then none
  else some (aset ip (count + 1) m)

/-- `releaseIPConnection(ip)` : decrement, floored at zero. -/
def releaseIPConnection (ip : ℕ) (m : List (ℕ × ℕ)) : List (ℕ × ℕ) :=
  let count := (alookup ip m).getD 0
  if count > 0 then aset ip (count - 1) m else m

/-- The externally driven happenings of one connection's lifecycle. -/
inductive GatewayEvent where
  /-- a new downstream socket from `ip` reaches the `connection` handler -/
  | connect (ip : ℕ)
  /-- connection `i`'s first message validates (auth ok / subscription ok):
  the timer is cleared and the upstream is opened -/
  | goodFirstMessage (i : ℕ)
  /-- connection `i`'s first message fails (invalid JSON, failed auth, or
  invalid subscription): `close(...)` + explicit `releaseIPConnection` -/
  | badFirstMessage (i : ℕ)
  /-- connection `i`'s subscription timer fires with no upstream:
  `close(...)` + explicit `releaseIPConnection` -/
  | subscriptionTimeout (i : ℕ)
  /-- connection `i` exceeds the message rate limit: `close(...)` only -/
  | rateLimitClose (i : ℕ)
  /-- the `close` event for connection `i`'s socket fires: the `close`
  handler calls `releaseIPConnection` -/
  | closeEvent (i : ℕ)
  deriving DecidableEq, Repr

def setPhase (conns : List GatewayConn) (i : ℕ) (p : ConnPhase) : List GatewayConn :=
  conns.set i { conns.getD i ⟨0, .closed⟩ with phase := p }

def gatewayStep (st : GatewayState) (ev : GatewayEvent) : GatewayState :=
  match ev with
  | .connect ip =>
    match checkIPRateLimit ip st.connectionsByIP with
    | none => ⟨st.conns ++ [⟨ip, .rejected⟩], st.connectionsByIP⟩
    | some m' => ⟨st.conns ++ [⟨ip, .awaiting⟩], m'⟩
  | .goodFirstMessage i =>
    match st.conns.get? i with
    | some c =>
      if c.phase = .awaiting then
        ⟨setPhase st.conns i .relaying, st.connectionsByIP⟩
      else st
    | none => st
  | .badFirstMessage i =>
    match st.conns.get? i with
    | some c =>
      if c.phase = .awaiting then
        ⟨setPhase st.conns i .closingReleased, releaseIPConnection c.ip st.connectionsByIP⟩
      else st
    | none => st
  | .subscriptionTimeout i =>
    match st.conns.get? i with
    | some c =>
      if c.phase = .awaiting then
        ⟨setPhase st.conns i .closingReleased, releaseIPConnection c.ip st.connectionsByIP⟩
      else st
    | none => st
  | .rateLimitClose i =>
    match st.conns.get? i with
    | some c =>
      if c.phase = .awaiting ∨ c.phase = .relaying then
        ⟨setPhase st.conns i .closingUnreleased, st.connectionsByIP⟩
      else st
    | none => st
  | .closeEvent i =>
    match st.conns.get? i with
    | some c =>
      if c.phase = .rejected ∨ c.phase = .closed then st
      else ⟨setPhase st.conns i .closed, releaseIPConnection c.ip st.connectionsByIP⟩
    | none => st

def runGateway (evs : List GatewayEvent) (st : GatewayState) : GatewayState :=
  evs.foldl gatewayStep st

/-- A connection is concurrently admitted while it holds an IP slot it was
granted and its socket has not finished closing. -/
def isAdmittedOpen (c : GatewayConn) : Bool :=
  c.phase = .awaiting ∨ c.phase = .relaying
    ∨ c.phase = .closingReleased ∨ c.phase = .closingUnreleased

/-- Number of concurrently admitted connections from `ip`. -/
def admittedCount (st : GatewayState) (ip : ℕ) : ℕ :=
  (st.conns.filter fun c => isAdmittedOpen c ∧ c.ip = ip).length

/-- Number of connections from `ip` that are actively relaying. -/
def relayingCount (st : GatewayState) (ip : ℕ) : ℕ :=
  (st.conns.filter fun c => c.phase = .relaying ∧ c.ip = ip).length

/-! ## Resilient stream client backoff (`services/vessel-notifier/src/index.ts`) -/

/-- The `VesselNotifier` fields that drive reconnect scheduling. -/
structure NotifierBackoff where
  reconnectDelay : ℕ
  deriving DecidableEq, Repr

/-- `reconnectDelay = 2000` (initial field value). -/
def initialReconnectDelay : ℕ := 2000

/-- `maxReconnectDelay = 60000`. -/
def maxReconnectDelay : ℕ := 60000

/-- `scheduleReconnect()`: returns the delay passed to `setTimeout` and the
state after the exponential-backoff update. -/
def scheduleReconnect (s : NotifierBackoff) : ℕ × NotifierBackoff :=
  (s.reconnectDelay, ⟨min (s.reconnectDelay * 2) maxReconnectDelay⟩)

/-- The `open` handler's `this.reconnectDelay = 2000` reset. -/
def onOpen (_ : NotifierBackoff) : NotifierBackoff := ⟨initialReconnectDelay⟩

/-- State after `n` consecutive connection failures (each failure runs
`scheduleReconnect` once). -/
def afterFailures (s : NotifierBackoff) : ℕ → NotifierBackoff
  | 0 => s
  | n + 1 => (scheduleReconnect (afterFailures s n)).2

/-! ## Timestamp normalization (`src/hooks/useAISStream.ts`, `parseTimeUtc`)

`new Date(raw)` is the host's date parser; it is modelled as an oracle
`jsDateIso : String → Option String` returning `d.toISOString()` exactly when
`!isNaN(d.getTime())`. The digit-extraction and the compact-format rebuild are
embedded exactly. -/

/-- `new Date(0).toISOString()` — the Unix-epoch sentinel. -/
def epochIso : String := "1970-01-01T00:00:00.000Z"

/-- `raw.replace(/[^0-9]/g, "")`. -/
def compactDigits (raw : String) : List Char :=
  raw.toList.filter Char.isDigit

/-- The ISO string rebuilt from a compact `"20240115123456"`-style timestamp. -/
def compactIso (c : List Char) : String :=
  String.mk (c.take 4) ++ "-" ++ String.mk ((c.drop 4).take 2) ++ "-"
    ++ String.mk ((c.drop 6).take 2) ++ "T" ++ String.mk ((c.drop 8).take 2)
    ++ ":" ++ String.mk ((c.drop 10).take 2) ++ ":"
    ++ String.mk ((c.drop 12).take 2) ++ "Z"

/-- `parseTimeUtc(raw)`. -/
def parseTimeUtc (jsDateIso : String → Option String) (raw : String) : String :=
  match jsDateIso raw with
  | some iso => iso
  | none =>
    let compact := compactDigits raw
    if 14 ≤ compact.length then compactIso compact else epochIso

/-- The slice of a `TrackedShip` record the stale purge reads. -/
structure TrackedShipT where
  mmsi : ℕ
  name : String
  lastUpdate : String
  deriving DecidableEq, Repr

/-- The `PURGE_STALE` branch of `shipsReducer`: keep a ship iff
`now - new Date(ship.lastUpdate).getTime() <= staleTimeout`; `getTime` is the
host's ISO-parse oracle. -/
def purgeStale (getTime : String → ℤ) (now staleTimeout : ℤ)
    (ships : List (ℕ × TrackedShipT)) : List (ℕ × TrackedShipT) :=
  ships.filter fun p => decide (now - getTime p.2.lastUpdate ≤ staleTimeout)

/-! ## Shared predicates for the detector theorems -/

/-- The position-validity gate of `processPositionReport`: not the (0,0)
sentinel and inside geographic bounds. -/
def validPosition (r : PositionReport) : Prop :=
  ¬(r.Latitude = 0 ∧ r.Longitude = 0)
    ∧ -90 ≤ r.Latitude ∧ r.Latitude ≤ 90
    ∧ -180 ≤ r.Longitude ∧ r.Longitude ≤ 180

/-- The edge-trigger condition: previous distance (∞ for a new vessel) above
the threshold, new distance at or below it, and the vessel moving. -/
def crossingCondition (dist : ℚ → ℚ → ℚ) (cfg : BridgeDetectorConfig)
    (st : DetectorState) (msg : AISMessage) (r : PositionReport) : Prop :=
  previousDistanceGT cfg.thresholdNM (alookup msg.MetaData.MMSI st.vessels) = true
    ∧ dist r.Latitude r.Longitude ≤ cfg.thresholdNM
    ∧ (0.5 : ℚ) ≤ r.Sog

/-- The cooldown gate as the source tests it (`lastNotified &&
now - lastNotified < cooldownMs`, a JS truthiness test on the timestamp). -/
def cooldownSuppressed (cfg : BridgeDetectorConfig) (now : ℤ)
    (st : DetectorState) (mmsi : ℕ) : Prop :=
  ∃ t, alookup mmsi st.notified = some t ∧ t ≠ 0 ∧ now - t < cfg.cooldownMs

/-! ## Theorems -/

/-- **C9.** `getDirection` first normalizes the course to [0,360); it answers
northbound on (315,360)∪[0,45), southbound on (135,225), and in every other
case (the boundary headings 45, 135, 225, 315 included) falls back to the
latitude tie-break: strictly north of the bridge ⇒ southbound, else
northbound. -/
theorem getDirection_spec (cog lat : ℚ) :
    (0 ≤ normalizeHeading cog ∧ normalizeHeading cog < 360)
    ∧ (315 < normalizeHeading cog ∨ normalizeHeading cog < 45 →
        getDirection cog lat = .northbound)
    ∧ (135 < normalizeHeading cog ∧ normalizeHeading cog < 225 →
        getDirection cog lat = .southbound)
    ∧ (¬(315 < normalizeHeading cog ∨ normalizeHeading cog < 45) →
        ¬(135 < normalizeHeading cog ∧ normalizeHeading cog < 225) →
        getDirection cog lat =
          if lat > BRIDGE_CENTER_lat then .southbound else .northbound)
    ∧ (normalizeHeading cog = 45 ∨ normalizeHeading cog = 135
        ∨ normalizeHeading cog = 225 ∨ normalizeHeading cog = 315 →
        getDirection cog lat =
          if lat > BRIDGE_CENTER_lat then .southbound else .northbound) := by
  obtain ⟨hlb, hub⟩ := normalizeHeading_bounds cog
  refine ⟨⟨hlb, hub⟩, ?_, ?_, ?_, ?_⟩
  · intro h
    simp only [getDirection]
    rw [if_pos h]
  · intro h
    simp only [getDirection]
    rw [if_neg (by push_neg; constructor <;> linarith [h.1, h.2]), if_pos h]
  · intro h1 h2
    simp only [getDirection]
    rw [if_neg h1, if_neg h2]
  · intro h
    have h1 : ¬(315 < normalizeHeading cog ∨ normalizeHeading cog < 45) := by
      rcases h with h | h | h | h <;> rw [h] <;> push_neg <;> norm_num
    have h2 : ¬(135 < normalizeHeading cog ∧ normalizeHeading cog < 225) := by
      rcases h with h | h | h | h <;> rw [h] <;> norm_num
    simp only [getDirection]
    rw [if_neg h1, if_neg h2]

/-- **C8.** The delay `scheduleReconnect` passes to `setTimeout` at the
(n+1)-st consecutive failure after a successful open is
`min(2000·2ⁿ, 60000)` — it starts at 2 s, doubles each failure, and is capped
at 60 s — and the `open` handler resets the stored delay to 2000 ms. -/
theorem reconnect_backoff_spec (s : NotifierBackoff) (n : ℕ) :
    (scheduleReconnect (afterFailures (onOpen s) n)).1
        = min (initialReconnectDelay * 2 ^ n) maxReconnectDelay
    ∧ (onOpen s).reconnectDelay = initialReconnectDelay := by
  constructor
  · have key : ∀ k : ℕ, (afterFailures (onOpen s) k).reconnectDelay
        = min (initialReconnectDelay * 2 ^ k) maxReconnectDelay := by
      intro k
      induction k with
      | zero => simp [afterFailures, onOpen, initialReconnectDelay, maxReconnectDelay]
      | succ k ih =>
        have hpow : initialReconnectDelay * 2 ^ (k + 1)
            = initialReconnectDelay * 2 ^ k * 2 := by ring
        simp only [afterFailures, scheduleReconnect, ih, hpow]
        generalize initialReconnectDelay * 2 ^ k = x
        simp only [maxReconnectDelay]
        omega
    simp only [scheduleReconnect, key n]
  · rfl

/-- **C6.** When `new Date(raw)` fails and the digit-stripped string is
shorter than the 14 characters the compact format needs, `parseTimeUtc` falls
back to the Unix-epoch sentinel; a record stamped with that sentinel is
removed by the stale purge at any clock value past the stale timeout; and for
every input the function total-returns one of its three branches (it never
throws). -/
theorem parseTimeUtc_epoch_fallback (jsDateIso : String → Option String)
    (getTime : String → ℤ) (raw : String) (now staleTimeout : ℤ)
    (ships : List (ℕ × TrackedShipT))
    (hfail : jsDateIso raw = none)
    (hshort : (compactDigits raw).length < 14) :
    parseTimeUtc jsDateIso raw = epochIso
    ∧ (getTime epochIso = 0 → staleTimeout < now →
        ∀ p ∈ purgeStale getTime now staleTimeout ships, p.2.lastUpdate ≠ epochIso)
    ∧ (∀ raw' : String,
        (∃ iso, jsDateIso raw' = some iso ∧ parseTimeUtc jsDateIso raw' = iso)
        ∨ parseTimeUtc jsDateIso raw' = compactIso (compactDigits raw')
        ∨ parseTimeUtc jsDateIso raw' = epochIso) := by
  refine ⟨?_, ?_, ?_⟩
  · simp only [parseTimeUtc, hfail]
    rw [if_neg (by omega)]
  · intro hepoch hlate p hp
    have := List.of_mem_filter hp
    intro hlast
    rw [hlast, hepoch] at this
    simp only [decide_eq_true_eq] at this
    omega
  · intro raw'
    cases hjs : jsDateIso raw' with
    | some iso => exact Or.inl ⟨iso, rfl, by simp [parseTimeUtc, hjs]⟩
    | none =>
      by_cases hlen : 14 ≤ (compactDigits raw').length
      · exact Or.inr (Or.inl (by simp [parseTimeUtc, hjs, hlen]))
      · exact Or.inr (Or.inr (by simp [parseTimeUtc, hjs, hlen]))

/-- **C6 witness.** A concrete unparseable timestamp falls back to the epoch
sentinel, and a ship stamped with it is purged. -/
theorem parseTimeUtc_epoch_fallback_instance :
    parseTimeUtc (fun _ => none) "garbage" = epochIso
    ∧ ((fun s => if s = epochIso then (0 : ℤ) else 1700000000000) epochIso = 0 →
        (600000 : ℤ) < 1700000000000 →
        ∀ p ∈ purgeStale (fun s => if s = epochIso then (0 : ℤ) else 1700000000000)
            1700000000000 600000
            [(367, { mmsi := 367, name := "A", lastUpdate := epochIso })],
          p.2.lastUpdate ≠ epochIso)
    ∧ (∀ raw' : String,
        (∃ iso, (fun _ => (none : Option String)) raw' = some iso
          ∧ parseTimeUtc (fun _ => none) raw' = iso)
        ∨ parseTimeUtc (fun _ => none) raw' = compactIso (compactDigits raw')
        ∨ parseTimeUtc (fun _ => none) raw' = epochIso) :=
  parseTimeUtc_epoch_fallback (fun _ => none)
    (fun s => if s = epochIso then (0 : ℤ) else 1700000000000)
    "garbage" 1700000000000 600000
    [(367, { mmsi := 367, name := "A", lastUpdate := epochIso })]
    rfl (by decide)

/-- `area = |lat2 - lat1| * |lon2 - lon1|` of a two-corner box. -/
def boxArea : List (ℚ × ℚ) → ℚ
  | [(lat1, lon1), (lat2, lon2)] => |lat2 - lat1| * |lon2 - lon1|
  | _ => 0

/-- A box has the `[[lat1,lon1],[lat2,lon2]]` shape. -/
def boxShapeOk (box : List (ℚ × ℚ)) : Prop :=
  ∃ lat1 lon1 lat2 lon2, box = [(lat1, lon1), (lat2, lon2)]

/-- Both corners are inside `VALID_BOUNDS`. -/
def boxInRange (box : List (ℚ × ℚ)) : Prop :=
  ∀ c ∈ box, -90 ≤ c.1 ∧ c.1 ≤ 90 ∧ -180 ≤ c.2 ∧ c.2 ≤ 180

theorem checkBox_of_wellformed {box : List (ℚ × ℚ)}
    (hs : boxShapeOk box) (hr : boxInRange box) :
    checkBox box = if boxArea box > MAX_BOUNDING_BOX_AREA
      then some .areaTooLarge else none := by
  obtain ⟨lat1, lon1, lat2, lon2, rfl⟩ := hs
  have h1 := hr (lat1, lon1) (by simp)
  have h2 := hr (lat2, lon2) (by simp)
  simp only [checkBox, boxArea]
  rw [if_neg]
  push_neg
  refine ⟨by linarith [h1.1], by linarith [h1.2.1], by linarith [h2.1],
    by linarith [h2.2.1], by linarith [h1.2.2.1], by linarith [h1.2.2.2],
    by linarith [h2.2.2.1], by linarith [h2.2.2.2]⟩

theorem checkBoxes_of_wellformed {boxes : List (List (ℚ × ℚ))}
    (hs : ∀ box ∈ boxes, boxShapeOk box) (hr : ∀ box ∈ boxes, boxInRange box) :
    checkBoxes boxes = (if ∃ box ∈ boxes, boxArea box > MAX_BOUNDING_BOX_AREA
      then some .areaTooLarge else none) := by
  induction boxes with
  | nil => simp [checkBoxes]
  | cons box rest ih =>
    have hbox := checkBox_of_wellformed (hs box (by simp))
      (hr box (by simp))
    have ihr := ih (fun b hb => hs b (List.mem_cons_of_mem _ hb))
      (fun b hb => hr b (List.mem_cons_of_mem _ hb))
    by_cases hb : boxArea box > MAX_BOUNDING_BOX_AREA
    · rw [checkBoxes, hbox, if_pos hb, if_pos ⟨box, by simp, hb⟩]
    · rw [checkBoxes, hbox, if_neg hb, ihr]
      by_cases hrest : ∃ b ∈ rest, boxArea b > MAX_BOUNDING_BOX_AREA
      · obtain ⟨b, hbm, hba⟩ := hrest
        rw [if_pos ⟨b, hbm, hba⟩, if_pos ⟨b, List.mem_cons_of_mem _ hbm, hba⟩]
      · rw [if_neg hrest, if_neg]
        rintro ⟨b, hbm, hba⟩
        rcases List.mem_cons.mp hbm with rfl | hbm
        · exact hb hba
        · exact hrest ⟨b, hbm, hba⟩

/-- **C4.** For a subscription whose boxes are well-shaped and inside the
coordinate bounds, validation fails with the area-exceeded reason exactly when
some box's `|Δlat|·|Δlon|` strictly exceeds the 100-square-degree cap (so a
box whose area equals the cap passes the area check); with all areas within
the cap, more than 5 boxes fail with the box-count reason, and at most 5
boxes with valid filter types validate successfully. -/
theorem validateSubscription_area_spec (sub : ClientSubscription)
    (hs : ∀ box ∈ sub.BoundingBoxes, boxShapeOk box)
    (hr : ∀ box ∈ sub.BoundingBoxes, boxInRange box) :
    (validateSubscription sub = .error .areaTooLarge ↔
      ∃ box ∈ sub.BoundingBoxes, boxArea box > MAX_BOUNDING_BOX_AREA)
    ∧ ((∀ box ∈ sub.BoundingBoxes, boxArea box ≤ MAX_BOUNDING_BOX_AREA) →
        sub.BoundingBoxes.length > 5 →
        validateSubscription sub = .error .tooManyBoxes)
    ∧ ((∀ box ∈ sub.BoundingBoxes, boxArea box ≤ MAX_BOUNDING_BOX_AREA) →
        sub.BoundingBoxes.length ≤ 5 →
        (∀ ts, sub.FilterMessageTypes = some ts → ts.all validMessageType = true) →
        validateSubscription sub
          = .ok ⟨sub.BoundingBoxes, sub.FilterMessageTypes⟩) := by
  have hcheck := checkBoxes_of_wellformed hs hr
  refine ⟨⟨?_, ?_⟩, ?_, ?_⟩
  · intro hval
    by_contra hno
    rw [validateSubscription, hcheck, if_neg hno] at hval
    by_cases hlen : sub.BoundingBoxes.length > 5
    · simp [hlen] at hval
    · cases hft : sub.FilterMessageTypes with
      | some ts =>
        by_cases hall : ts.all validMessageType = true <;>
          simp [hlen, hft, hall] at hval
      | none => simp [hlen, hft] at hval
  · intro hex
    rw [validateSubscription, hcheck, if_pos hex]
  · intro hle hlen
    have hno : ¬∃ box ∈ sub.BoundingBoxes, boxArea box > MAX_BOUNDING_BOX_AREA := by
      rintro ⟨b, hb, hba⟩
      exact absurd hba (not_lt.mpr (hle b hb))
    rw [validateSubscription, hcheck, if_neg hno, if_pos hlen]
  · intro hle hlen hft
    have hno : ¬∃ box ∈ sub.BoundingBoxes, boxArea box > MAX_BOUNDING_BOX_AREA := by
      rintro ⟨b, hb, hba⟩
      exact absurd hba (not_lt.mpr (hle b hb))
    have hlen' : ¬sub.BoundingBoxes.length > 5 := not_lt.mpr hlen
    cases hcase : sub.FilterMessageTypes with
    | some ts => simp [validateSubscription, hcheck, hno, hlen', hcase, hft ts hcase]
    | none => simp [validateSubscription, hcheck, hno, hlen', hcase]

/-- **C4 witness.** A single box of area exactly 100 square degrees (the cap)
validates successfully; the instantiated area characterization holds. -/
theorem validateSubscription_area_instance :
    (validateSubscription ⟨[[(0, 0), (10, 10)]], none, []⟩
        = .error .areaTooLarge ↔
      ∃ box ∈ [[((0 : ℚ), (0 : ℚ)), (10, 10)]],
        boxArea box > MAX_BOUNDING_BOX_AREA)
    ∧ ((∀ box ∈ [[((0 : ℚ), (0 : ℚ)), (10, 10)]],
          boxArea box ≤ MAX_BOUNDING_BOX_AREA) →
        ([[((0 : ℚ), (0 : ℚ)), (10, 10)]] : List (List (ℚ × ℚ))).length > 5 →
        validateSubscription ⟨[[(0, 0), (10, 10)]], none, []⟩
          = .error .tooManyBoxes)
    ∧ ((∀ box ∈ [[((0 : ℚ), (0 : ℚ)), (10, 10)]],
          boxArea box ≤ MAX_BOUNDING_BOX_AREA) →
        ([[((0 : ℚ), (0 : ℚ)), (10, 10)]] : List (List (ℚ × ℚ))).length ≤ 5 →
        (∀ ts, (none : Option (List FilterMessageType)) = some ts →
          ts.all validMessageType = true) →
        validateSubscription ⟨[[(0, 0), (10, 10)]], none, []⟩
          = .ok ⟨[[(0, 0), (10, 10)]], none⟩) :=
  validateSubscription_area_spec ⟨[[(0, 0), (10, 10)]], none, []⟩
    (by rintro box hb
        simp only [List.mem_singleton] at hb
        exact ⟨0, 0, 10, 10, hb⟩)
    (by rintro box hb c hc
        simp only [List.mem_singleton] at hb
        subst hb
        rcases List.mem_cons.mp hc with rfl | hc
        · norm_num
        · rcases List.mem_cons.mp hc with rfl | hc
          · norm_num
          · simp at hc)

theorem validateSubscription_ok_eq {sub : ClientSubscription}
    {z : SanitizedSubscription} (h : validateSubscription sub = .ok z) :
    z = ⟨sub.BoundingBoxes, sub.FilterMessageTypes⟩ := by
  unfold validateSubscription at h
  split at h
  · exact absurd h (by simp)
  · split at h
    · exact absurd h (by simp)
    · split at h
      · split at h
        · simp only [Except.ok.injEq] at h
          subst h
          simp_all
        · exact absurd h (by simp)
      · simp only [Except.ok.injEq] at h
        subst h
        simp_all

/-- **C5.** The upstream's first message for an accepted client payload holds
exactly the client's `BoundingBoxes`, its `FilterMessageTypes` when present,
and the server-held `Apikey`; every other client field (a client-supplied
`Apikey` included) is discarded, so two accepted payloads that agree on those
two fields forward identically no matter what extra fields they carried. -/
theorem upstream_first_message_whitelist (apiKey : String)
    (s1 s2 : ClientSubscription) (z1 z2 : UpstreamSubscription)
    (h1 : forwardedSubscription apiKey s1 = .ok z1)
    (h2 : forwardedSubscription apiKey s2 = .ok z2)
    (hb : s1.BoundingBoxes = s2.BoundingBoxes)
    (hf : s1.FilterMessageTypes = s2.FilterMessageTypes) :
    z1 = z2 ∧ z1.Apikey = apiKey
      ∧ z1.BoundingBoxes = s1.BoundingBoxes
      ∧ z1.FilterMessageTypes = s1.FilterMessageTypes := by
  have hform : ∀ (s : ClientSubscription) (z : UpstreamSubscription),
      forwardedSubscription apiKey s = .ok z →
      z = ⟨s.BoundingBoxes, s.FilterMessageTypes, apiKey⟩ := by
    intro s z h
    rw [forwardedSubscription] at h
    cases hv : validateSubscription s with
    | error e => rw [hv] at h; exact absurd h (by simp [Except.map])
    | ok w =>
      rw [hv] at h
      simp only [Except.map] at h
      cases h
      rw [validateSubscription_ok_eq hv]
  rw [hform s1 z1 h1, hform s2 z2 h2, hb, hf]
  exact ⟨rfl, rfl, rfl, rfl⟩

/-- **C5 witness.** Two concrete accepted payloads that differ only in extra
fields (one smuggling its own `Apikey` and an `Admin` flag) are forwarded as
the same upstream subscription, carrying the server key. -/
theorem upstream_first_message_whitelist_instance :
    ((⟨[[(42, -83), (43, -82)]], some [.str "PositionReport"],
        "SERVER-KEY"⟩ : UpstreamSubscription)
      = ⟨[[(42, -83), (43, -82)]], some [.str "PositionReport"],
        "SERVER-KEY"⟩)
    ∧ (⟨[[((42 : ℚ), (-83 : ℚ)), (43, -82)]],
        some [FilterMessageType.str "PositionReport"],
        "SERVER-KEY"⟩ : UpstreamSubscription).Apikey = "SERVER-KEY"
    ∧ (⟨[[((42 : ℚ), (-83 : ℚ)), (43, -82)]],
        some [FilterMessageType.str "PositionReport"],
        "SERVER-KEY"⟩ : UpstreamSubscription).BoundingBoxes
      = (⟨[[(42, -83), (43, -82)]], some [.str "PositionReport"],
          [("Apikey", "STOLEN"), ("Admin", "true")]⟩ : ClientSubscription).BoundingBoxes
    ∧ (⟨[[((42 : ℚ), (-83 : ℚ)), (43, -82)]],
        some [FilterMessageType.str "PositionReport"],
        "SERVER-KEY"⟩ : UpstreamSubscription).FilterMessageTypes
      = (⟨[[(42, -83), (43, -82)]], some [.str "PositionReport"],
          [("Apikey", "STOLEN"), ("Admin", "true")]⟩ : ClientSubscription).FilterMessageTypes :=
  upstream_first_message_whitelist "SERVER-KEY"
    ⟨[[(42, -83), (43, -82)]], some [.str "PositionReport"],
      [("Apikey", "STOLEN"), ("Admin", "true")]⟩
    ⟨[[(42, -83), (43, -82)]], some [.str "PositionReport"], []⟩
    ⟨[[(42, -83), (43, -82)]], some [.str "PositionReport"], "SERVER-KEY"⟩
    ⟨[[(42, -83), (43, -82)]], some [.str "PositionReport"], "SERVER-KEY"⟩
    (by norm_num [forwardedSubscription, validateSubscription, checkBoxes,
      checkBox, validMessageType, MAX_BOUNDING_BOX_AREA, Except.map])
    (by norm_num [forwardedSubscription, validateSubscription, checkBoxes,
      checkBox, validMessageType, MAX_BOUNDING_BOX_AREA, Except.map])
    rfl rfl

/-! ### Branch characterizations of `processPositionReport` -/

theorem ppr_invalid {dist : ℚ → ℚ → ℚ} {cfg : BridgeDetectorConfig} {now : ℤ}
    {msg : AISMessage} {r : PositionReport} {st : DetectorState}
    (hv : ¬validPosition r) :
    processPositionReport dist cfg now msg r st = (st, none) := by
  simp only [processPositionReport]
  by_cases h0 : r.Latitude = 0 ∧ r.Longitude = 0
  · rw [if_pos h0]
  · rw [if_neg h0, if_pos]
    by_contra hB
    push_neg at hB
    exact hv ⟨h0, hB.1, hB.2.1, hB.2.2.1, hB.2.2.2⟩

theorem ppr_valid_eq {dist : ℚ → ℚ → ℚ} {cfg : BridgeDetectorConfig} {now : ℤ}
    {msg : AISMessage} {r : PositionReport} {st : DetectorState}
    (hv : validPosition r) :
    processPositionReport dist cfg now msg r st =
      (let mmsi := msg.MetaData.MMSI
       let existing := alookup mmsi st.vessels
       let vessel := upsertedVessel dist now msg r existing
       let vessels' := aset mmsi vessel st.vessels
       if previousDistanceGT cfg.thresholdNM existing
           ∧ dist r.Latitude r.Longitude ≤ cfg.thresholdNM
           ∧ (0.5 : ℚ) ≤ r.Sog then
         match alookup mmsi st.notified with
         | some lastNotified =>
           if lastNotified ≠ 0 ∧ now - lastNotified < cfg.cooldownMs then
             (⟨vessels', st.notified⟩, none)
           else
             (⟨vessels', aset mmsi now st.notified⟩,
               some (crossingEventOf dist now msg r vessel))
         | none =>
           (⟨vessels', aset mmsi now st.notified⟩,
             some (crossingEventOf dist now msg r vessel))
       else (⟨vessels', st.notified⟩, none)) := by
  obtain ⟨h0, h1, h2, h3, h4⟩ := hv
  simp only [processPositionReport]
  rw [if_neg h0, if_neg (by push_neg; exact ⟨h1, h2, h3, h4⟩)]

theorem ppr_not_crossing {dist : ℚ → ℚ → ℚ} {cfg : BridgeDetectorConfig}
    {now : ℤ} {msg : AISMessage} {r : PositionReport} {st : DetectorState}
    (hv : validPosition r) (hnc : ¬crossingCondition dist cfg st msg r) :
    processPositionReport dist cfg now msg r st =
      (⟨aset msg.MetaData.MMSI
          (upsertedVessel dist now msg r (alookup msg.MetaData.MMSI st.vessels))
          st.vessels, st.notified⟩, none) := by
  unfold crossingCondition at hnc
  simp only [ppr_valid_eq hv]
  rw [if_neg hnc]

theorem ppr_suppressed {dist : ℚ → ℚ → ℚ} {cfg : BridgeDetectorConfig}
    {now : ℤ} {msg : AISMessage} {r : PositionReport} {st : DetectorState}
    (hv : validPosition r) (hc : crossingCondition dist cfg st msg r)
    (hs : cooldownSuppressed cfg now st msg.MetaData.MMSI) :
    processPositionReport dist cfg now msg r st =
      (⟨aset msg.MetaData.MMSI
          (upsertedVessel dist now msg r (alookup msg.MetaData.MMSI st.vessels))
          st.vessels, st.notified⟩, none) := by
  obtain ⟨t, hn, ht, hw⟩ := hs
  unfold crossingCondition at hc
  simp only [ppr_valid_eq hv]
  rw [if_pos hc]
  simp only [hn]
  rw [if_pos ⟨ht, hw⟩]

theorem ppr_fire {dist : ℚ → ℚ → ℚ} {cfg : BridgeDetectorConfig}
    {now : ℤ} {msg : AISMessage} {r : PositionReport} {st : DetectorState}
    (hv : validPosition r) (hc : crossingCondition dist cfg st msg r)
    (hs : ¬cooldownSuppressed cfg now st msg.MetaData.MMSI) :
    processPositionReport dist cfg now msg r st =
      (⟨aset msg.MetaData.MMSI
          (upsertedVessel dist now msg r (alookup msg.MetaData.MMSI st.vessels))
          st.vessels, aset msg.MetaData.MMSI now st.notified⟩,
        some (crossingEventOf dist now msg r
          (upsertedVessel dist now msg r (alookup msg.MetaData.MMSI st.vessels)))) := by
  have hc' := hc
  unfold crossingCondition at hc'
  simp only [ppr_valid_eq hv]
  rw [if_pos hc']
  cases hn : alookup msg.MetaData.MMSI st.notified with
  | none => simp
  | some t =>
    simp only []
    rw [if_neg]
    intro hsup
    exact hs ⟨t, hn, hsup⟩

/-- Every emitted crossing event carries the reporting vessel's MMSI, comes
from a position report, and that report was moving at ≥ 0.5 kn. -/
theorem processMessage_event_inv {dist : ℚ → ℚ → ℚ} {cfg : BridgeDetectorConfig}
    {now : ℤ} {msg : AISMessage} {st : DetectorState} {e : BridgeCrossingEvent}
    (h : (processMessage dist cfg now msg st).2 = some e) :
    e.mmsi = msg.MetaData.MMSI
      ∧ ∃ r, msg.PositionReport = some r ∧ (0.5 : ℚ) ≤ r.Sog := by
  cases hpr : msg.PositionReport with
  | none =>
    cases hsd : msg.ShipStaticData <;>
      simp [processMessage, hpr, hsd] at h
  | some r =>
    simp only [processMessage, hpr] at h
    by_cases hv : validPosition r
    · by_cases hc : crossingCondition dist cfg st msg r
      · by_cases hs : cooldownSuppressed cfg now st msg.MetaData.MMSI
        · rw [ppr_suppressed hv hc hs] at h
          simp at h
        · rw [ppr_fire hv hc hs] at h
          simp only [Option.some.injEq] at h
          subst h
          exact ⟨rfl, r, rfl, hc.2.2⟩
      · rw [ppr_not_crossing hv hc] at h
        simp at h
    · rw [ppr_invalid hv] at h
      simp at h

/-- While a nonzero cooldown record for `m` is inside the window, a processed
message neither emits an event for `m` nor disturbs `m`'s cooldown record. -/
theorem processMessage_suppressed_step {dist : ℚ → ℚ → ℚ}
    {cfg : BridgeDetectorConfig} {now : ℤ} {msg : AISMessage}
    {st : DetectorState} {m : ℕ} {t : ℤ}
    (hn : alookup m st.notified = some t) (ht : t ≠ 0)
    (hw : now - t < cfg.cooldownMs) :
    (∀ e, (processMessage dist cfg now msg st).2 = some e → e.mmsi ≠ m)
      ∧ alookup m (processMessage dist cfg now msg st).1.notified = some t := by
  cases hpr : msg.PositionReport with
  | none =>
    cases hsd : msg.ShipStaticData with
    | none => simp [processMessage, hpr, hsd, hn]
    | some data =>
      simp only [processMessage, hpr, hsd]
      constructor
      · intro e he
        simp at he
      · simp only [processStaticData]
        cases halk : alookup msg.MetaData.MMSI st.vessels <;> simp [hn]
  | some r =>
    simp only [processMessage, hpr]
    by_cases hv : validPosition r
    · by_cases hc : crossingCondition dist cfg st msg r
      · by_cases hmm : msg.MetaData.MMSI = m
        · have hsup : cooldownSuppressed cfg now st msg.MetaData.MMSI := by
            refine ⟨t, ?_, ht, hw⟩
            rw [hmm]
            exact hn
          rw [ppr_suppressed hv hc hsup]
          simp [hn]
        · by_cases hs : cooldownSuppressed cfg now st msg.MetaData.MMSI
          · rw [ppr_suppressed hv hc hs]
            simp [hn]
          · rw [ppr_fire hv hc hs]
            constructor
            · intro e he
              simp only [Option.some.injEq] at he
              subst he
              simpa [crossingEventOf] using hmm
            · simpa using (alookup_aset_ne now st.notified
                (fun hcontra => hmm hcontra.symm)).trans hn
      · rw [ppr_not_crossing hv hc]
        simp [hn]
    · rw [ppr_invalid hv]
      simp [hn]

/-- **C1.** For a position report with a valid position, a crossing event is
returned exactly when the edge-trigger condition holds (previous recorded
distance — ∞ for a new vessel — strictly above the threshold, new distance at
or below it, speed ≥ 0.5 kn) and the cooldown gate does not suppress it; in
particular a report slower than 0.5 kn never fires, and over any message
sequence a vessel all of whose position reports are slower than 0.5 kn never
has a crossing event emitted. -/
theorem crossing_edge_trigger_spec :
    (∀ (dist : ℚ → ℚ → ℚ) (cfg : BridgeDetectorConfig) (now : ℤ)
        (msg : AISMessage) (r : PositionReport) (st : DetectorState),
      msg.PositionReport = some r → validPosition r →
      ((processMessage dist cfg now msg st).2.isSome ↔
          crossingCondition dist cfg st msg r
            ∧ ¬cooldownSuppressed cfg now st msg.MetaData.MMSI)
        ∧ (r.Sog < 0.5 → (processMessage dist cfg now msg st).2 = none))
    ∧ (∀ (dist : ℚ → ℚ → ℚ) (cfg : BridgeDetectorConfig)
        (msgs : List (ℤ × AISMessage)) (st : DetectorState) (m : ℕ),
      (∀ p ∈ msgs, p.2.MetaData.MMSI = m →
        ∀ r, p.2.PositionReport = some r → r.Sog < 0.5) →
      ∀ e ∈ (runMessages dist cfg msgs st).2, e.mmsi ≠ m) := by
  constructor
  · intro dist cfg now msg r st hpr hv
    constructor
    · by_cases hc : crossingCondition dist cfg st msg r
      · by_cases hs : cooldownSuppressed cfg now st msg.MetaData.MMSI
        · simp [processMessage, hpr, ppr_suppressed hv hc hs, hs]
        · simp [processMessage, hpr, ppr_fire hv hc hs, hc, hs]
      · simp [processMessage, hpr, ppr_not_crossing hv hc, hc]
    · intro hsog
      have hnc : ¬crossingCondition dist cfg st msg r := fun hc =>
        absurd hc.2.2 (not_le.mpr hsog)
      simp [processMessage, hpr, ppr_not_crossing hv hnc]
  · intro dist cfg msgs st m hslow e he
    induction msgs generalizing st with
    | nil => simp [runMessages] at he
    | cons p rest ih =>
      obtain ⟨now, msg⟩ := p
      simp only [runMessages, List.mem_append] at he
      rcases he with he | he
      · have hsome : (processMessage dist cfg now msg st).2 = some e := by
          cases hx : (processMessage dist cfg now msg st).2 with
          | none => rw [hx] at he; simp at he
          | some e' => rw [hx] at he; simp at he; rw [he]
        obtain ⟨hmmsi, r, hr, hsog⟩ := processMessage_event_inv hsome
        intro hem
        exact absurd hsog (not_le.mpr
          (hslow (now, msg) (List.mem_cons_self _ _) (hmmsi.symm.trans hem) r hr))
      · exact ih _ (fun q hq => hslow q (List.mem_cons_of_mem _ hq)) he

/-- **C2.** Once a crossing event has been dispatched for a vessel (leaving a
nonzero cooldown record at time `t`), no further crossing event is emitted for
that vessel by any message processed while `now − t` is inside the cooldown
window — however often it re-crosses the threshold — and the record survives
unchanged; a report suppressed by the gate still updates the tracked-vessel
record; and when the crossing condition holds with the gate open (no record,
or the window elapsed) the event is returned with all its fields and a fresh
cooldown record at `now` is written. -/
theorem cooldown_window_spec :
    (∀ (dist : ℚ → ℚ → ℚ) (cfg : BridgeDetectorConfig) (st : DetectorState)
        (m : ℕ) (t : ℤ) (msgs : List (ℤ × AISMessage)),
      alookup m st.notified = some t → t ≠ 0 →
      (∀ p ∈ msgs, p.1 - t < cfg.cooldownMs) →
      (∀ e ∈ (runMessages dist cfg msgs st).2, e.mmsi ≠ m)
        ∧ alookup m (runMessages dist cfg msgs st).1.notified = some t)
    ∧ (∀ (dist : ℚ → ℚ → ℚ) (cfg : BridgeDetectorConfig) (now : ℤ)
        (msg : AISMessage) (r : PositionReport) (st : DetectorState),
      msg.PositionReport = some r → validPosition r →
      crossingCondition dist cfg st msg r →
      cooldownSuppressed cfg now st msg.MetaData.MMSI →
      (processMessage dist cfg now msg st).2 = none
        ∧ alookup msg.MetaData.MMSI (processMessage dist cfg now msg st).1.vessels
            = some (upsertedVessel dist now msg r
                (alookup msg.MetaData.MMSI st.vessels)))
    ∧ (∀ (dist : ℚ → ℚ → ℚ) (cfg : BridgeDetectorConfig) (now : ℤ)
        (msg : AISMessage) (r : PositionReport) (st : DetectorState),
      msg.PositionReport = some r → validPosition r →
      crossingCondition dist cfg st msg r →
      ¬cooldownSuppressed cfg now st msg.MetaData.MMSI →
      (processMessage dist cfg now msg st).2
          = some (crossingEventOf dist now msg r
              (upsertedVessel dist now msg r (alookup msg.MetaData.MMSI st.vessels)))
        ∧ alookup msg.MetaData.MMSI (processMessage dist cfg now msg st).1.notified
            = some now) := by
  refine ⟨?_, ?_, ?_⟩
  · intro dist cfg st m t msgs hn ht hw
    induction msgs generalizing st with
    | nil => exact ⟨by simp [runMessages], by simpa [runMessages] using hn⟩
    | cons p rest ih =>
      obtain ⟨now, msg⟩ := p
      have hw1 : now - t < cfg.cooldownMs := hw (now, msg) (List.mem_cons_self _ _)
      have hstep := @processMessage_suppressed_step dist cfg now msg st m t hn ht hw1
      have hrest := ih _ hstep.2 (fun q hq => hw q (List.mem_cons_of_mem _ hq))
      constructor
      · intro e he
        simp only [runMessages, List.mem_append] at he
        rcases he with he | he
        · refine hstep.1 e ?_
          cases hx : (processMessage dist cfg now msg st).2 with
          | none => rw [hx] at he; simp at he
          | some e' => rw [hx] at he; simp at he; rw [he]
        · exact hrest.1 e he
      · simp only [runMessages]
        exact hrest.2
  · intro dist cfg now msg r st hpr hv hc hs
    have heq := @ppr_suppressed dist cfg now msg r st hv hc hs
    simp only [processMessage, hpr, heq]
    exact ⟨trivial, alookup_aset_self _ _ _⟩
  · intro dist cfg now msg r st hpr hv hc hs
    have heq := @ppr_fire dist cfg now msg r st hv hc hs
    simp only [processMessage, hpr, heq]
    exact ⟨trivial, alookup_aset_self _ _ _⟩

/-! ### Static-data merge characterization -/

theorem mergeStatic_frame (data : ShipStaticData) (ex : TrackedVessel) :
    (mergeStatic data ex).mmsi = ex.mmsi
    ∧ (mergeStatic data ex).latitude = ex.latitude
    ∧ (mergeStatic data ex).longitude = ex.longitude
    ∧ (mergeStatic data ex).cog = ex.cog
    ∧ (mergeStatic data ex).sog = ex.sog
    ∧ (mergeStatic data ex).distanceToBridge = ex.distanceToBridge
    ∧ (mergeStatic data ex).lastUpdate = ex.lastUpdate := by
  simp only [mergeStatic]
  cases data.Name <;> cases data.Destination <;> cases data.«Type» <;>
    cases data.Dimension <;> simp <;> split_ifs <;> simp

theorem mergeStatic_fields (data : ShipStaticData) (ex : TrackedVessel) :
    (mergeStatic data ex).name
        = (match data.Name with
            | some n => if n.trim ≠ "" then n.trim else ex.name
            | none => ex.name)
    ∧ (mergeStatic data ex).destination
        = (match data.Destination with
            | some d => if d.trim ≠ "" then some d.trim else ex.destination
            | none => ex.destination)
    ∧ (mergeStatic data ex).shipType
        = (match data.«Type» with
            | some ty => if ty ≠ 0 then some ty else ex.shipType
            | none => ex.shipType)
    ∧ (mergeStatic data ex).length
        = (match data.Dimension with
            | some dim => some (dim.A + dim.B)
            | none => ex.length) := by
  simp only [mergeStatic]
  cases data.Name <;> cases data.Destination <;> cases data.«Type» <;>
    cases data.Dimension <;> simp <;> split_ifs <;> simp

/-- **C7.** A static-data message merges name/destination/type/length into an
existing tracked record — each only when the incoming field is non-empty —
leaves the record's position, course, speed, distance and last-update
untouched, leaves every other vessel and the cooldown map untouched, and for
an unknown vessel ID changes nothing at all (static data never creates a
record, so `trackedCount` is unchanged). -/
theorem static_data_frame_spec (dist : ℚ → ℚ → ℚ) (cfg : BridgeDetectorConfig)
    (now : ℤ) (msg : AISMessage) (data : ShipStaticData) (st : DetectorState)
    (hpos : msg.PositionReport = none)
    (hstatic : msg.ShipStaticData = some data) :
    (processMessage dist cfg now msg st).2 = none
    ∧ (alookup msg.MetaData.MMSI st.vessels = none →
        (processMessage dist cfg now msg st).1 = st)
    ∧ trackedCount (processMessage dist cfg now msg st).1 = trackedCount st
    ∧ (processMessage dist cfg now msg st).1.notified = st.notified
    ∧ (∀ m', m' ≠ msg.MetaData.MMSI →
        alookup m' (processMessage dist cfg now msg st).1.vessels
          = alookup m' st.vessels)
    ∧ (∀ ex, alookup msg.MetaData.MMSI st.vessels = some ex →
        (processMessage dist cfg now msg st).1.vessels
            = aset msg.MetaData.MMSI (mergeStatic data ex) st.vessels
          ∧ (mergeStatic data ex).latitude = ex.latitude
          ∧ (mergeStatic data ex).longitude = ex.longitude
          ∧ (mergeStatic data ex).cog = ex.cog
          ∧ (mergeStatic data ex).sog = ex.sog
          ∧ (mergeStatic data ex).distanceToBridge = ex.distanceToBridge
          ∧ (mergeStatic data ex).lastUpdate = ex.lastUpdate
          ∧ (mergeStatic data ex).name
              = (match data.Name with
                  | some n => if n.trim ≠ "" then n.trim else ex.name
                  | none => ex.name)
          ∧ (mergeStatic data ex).destination
              = (match data.Destination with
                  | some d => if d.trim ≠ "" then some d.trim else ex.destination
                  | none => ex.destination)
          ∧ (mergeStatic data ex).shipType
              = (match data.«Type» with
                  | some ty => if ty ≠ 0 then some ty else ex.shipType
                  | none => ex.shipType)
          ∧ (mergeStatic data ex).length
              = (match data.Dimension with
                  | some dim => some (dim.A + dim.B)
                  | none => ex.length)) := by
  simp only [processMessage, hpos, hstatic]
  refine ⟨trivial, ?_, ?_, ?_, ?_, ?_⟩
  · intro hnone
    simp [processStaticData, hnone]
  · simp only [processStaticData, trackedCount]
    cases halk : alookup msg.MetaData.MMSI st.vessels with
    | none => rfl
    | some ex =>
      exact length_aset_of_mem _ _ (by rw [halk]; rfl)
  · simp only [processStaticData]
    cases halk : alookup msg.MetaData.MMSI st.vessels <;> rfl
  · intro m' hm'
    simp only [processStaticData]
    cases halk : alookup msg.MetaData.MMSI st.vessels with
    | none => rfl
    | some ex => exact alookup_aset_ne _ _ hm'
  · intro ex hex
    simp only [processStaticData, hex]
    obtain ⟨_, h2, h3, h4, h5, h6, h7⟩ := mergeStatic_frame data ex
    obtain ⟨g1, g2, g3, g4⟩ := mergeStatic_fields data ex
    exact ⟨trivial, h2, h3, h4, h5, h6, h7, g1, g2, g3, g4⟩

/-- **C7 witness.** Static data for a vessel id absent from a concrete
one-vessel detector state changes nothing; for the present id the merge frame
holds. -/
theorem static_data_frame_instance :
    ((processMessage (fun _ _ => 1) DEFAULT_CONFIG 1000
        ⟨none, some ⟨none, some "SARNIA", none, none, some "CSL WELLAND", some 70, none⟩,
          ⟨999, none, 0, 0, "t"⟩⟩
        ⟨[(367, ⟨367, "F", 43, -82, 10, 5, 3, 500, none, none, none⟩)], []⟩).2 = none)
    ∧ (alookup 999 [(367, (⟨367, "F", 43, -82, 10, 5, 3, 500, none, none, none⟩ : TrackedVessel))] = none →
        (processMessage (fun _ _ => 1) DEFAULT_CONFIG 1000
          ⟨none, some ⟨none, some "SARNIA", none, none, some "CSL WELLAND", some 70, none⟩,
            ⟨999, none, 0, 0, "t"⟩⟩
          ⟨[(367, ⟨367, "F", 43, -82, 10, 5, 3, 500, none, none, none⟩)], []⟩).1
          = ⟨[(367, ⟨367, "F", 43, -82, 10, 5, 3, 500, none, none, none⟩)], []⟩) := by
  have h := static_data_frame_spec (fun _ _ => 1) DEFAULT_CONFIG 1000
    ⟨none, some ⟨none, some "SARNIA", none, none, some "CSL WELLAND", some 70, none⟩,
      ⟨999, none, 0, 0, "t"⟩⟩
    ⟨none, some "SARNIA", none, none, some "CSL WELLAND", some 70, none⟩
    ⟨[(367, ⟨367, "F", 43, -82, 10, 5, 3, 500, none, none, none⟩)], []⟩
    rfl rfl
  exact ⟨h.1, fun _ => h.2.1 (by decide)⟩

/-! ### Tracked-record consistency invariant -/

/-- A tracked record is valid when its position is inside geographic bounds,
is not the (0,0) sentinel, and its stored distance equals the distance
function applied to its stored position. -/
def validVesselRecord (dist : ℚ → ℚ → ℚ) (v : TrackedVessel) : Prop :=
  (-90 ≤ v.latitude ∧ v.latitude ≤ 90 ∧ -180 ≤ v.longitude ∧ v.longitude ≤ 180)
    ∧ ¬(v.latitude = 0 ∧ v.longitude = 0)
    ∧ v.distanceToBridge = dist v.latitude v.longitude

def goodDetectorState (dist : ℚ → ℚ → ℚ) (st : DetectorState) : Prop :=
  ∀ p ∈ st.vessels, validVesselRecord dist p.2

theorem ppr_vessels_char {dist : ℚ → ℚ → ℚ} {cfg : BridgeDetectorConfig}
    {now : ℤ} {msg : AISMessage} {r : PositionReport} {st : DetectorState}
    (hv : validPosition r) :
    (processPositionReport dist cfg now msg r st).1.vessels
      = aset msg.MetaData.MMSI
          (upsertedVessel dist now msg r (alookup msg.MetaData.MMSI st.vessels))
          st.vessels := by
  by_cases hc : crossingCondition dist cfg st msg r
  · by_cases hs : cooldownSuppressed cfg now st msg.MetaData.MMSI
    · rw [ppr_suppressed hv hc hs]
    · rw [ppr_fire hv hc hs]
  · rw [ppr_not_crossing hv hc]

theorem good_processMessage {dist : ℚ → ℚ → ℚ} {cfg : BridgeDetectorConfig}
    {now : ℤ} {msg : AISMessage} {st : DetectorState}
    (h : goodDetectorState dist st) :
    goodDetectorState dist (processMessage dist cfg now msg st).1 := by
  cases hpr : msg.PositionReport with
  | some r =>
    simp only [processMessage, hpr]
    by_cases hv : validPosition r
    · intro p hp
      rw [ppr_vessels_char hv] at hp
      refine forall_aset (P := fun p => validVesselRecord dist p.2) h ?_ p hp
      obtain ⟨h0, h1, h2, h3, h4⟩ := hv
      exact ⟨⟨h1, h2, h3, h4⟩, h0, rfl⟩
    · rw [ppr_invalid hv]
      exact h
  | none =>
    cases hsd : msg.ShipStaticData with
    | none => simpa [processMessage, hpr, hsd] using h
    | some data =>
      simp only [processMessage, hpr, hsd, processStaticData]
      cases halk : alookup msg.MetaData.MMSI st.vessels with
      | none => exact h
      | some ex =>
        intro p hp
        refine forall_aset (P := fun p => validVesselRecord dist p.2) h ?_ p hp
        obtain ⟨_, hlat, hlon, hcog, hsog, hdist, _⟩ := mergeStatic_frame data ex
        have hex : validVesselRecord dist ex :=
          h (msg.MetaData.MMSI, ex) (alookup_mem halk)
        unfold validVesselRecord at hex ⊢
        rw [hlat, hlon, hdist]
        exact hex

theorem good_cleanupStale {dist : ℚ → ℚ → ℚ} {cfg : BridgeDetectorConfig}
    {now : ℤ} {st : DetectorState} (h : goodDetectorState dist st) :
    goodDetectorState dist (cleanupStale cfg now st).1 := by
  intro p hp
  exact h p (List.mem_of_mem_filter hp)

/-- **C10.** After any sequence of message-processing and cleanup calls on a
detector whose state satisfies the record invariant (in particular the empty
initial state), every tracked record still has an in-bounds, non-(0,0)
position and a stored distance equal to the distance function applied to that
stored position: rejected positions are never written, position reports
recompute the distance together with the position, static data never touches
either, and eviction only deletes. -/
theorem tracked_distance_consistency (dist : ℚ → ℚ → ℚ)
    (cfg : BridgeDetectorConfig) (ops : List DetectorOp) (st : DetectorState)
    (h : goodDetectorState dist st) :
    goodDetectorState dist (runOps dist cfg ops st) := by
  induction ops generalizing st with
  | nil => exact h
  | cons op rest ih =>
    cases op with
    | message now msg => exact ih _ (good_processMessage h)
    | cleanup now => exact ih _ (good_cleanupStale h)

/-- **C1 witness.** The per-report characterization instantiated at a
concrete moving vessel over a concrete detector state. -/
theorem crossing_edge_trigger_instance :
    ((processMessage (fun _ _ => 0) DEFAULT_CONFIG 1000
        ⟨some ⟨180, 43, -82, 0, 8, 511, 367⟩, none, ⟨367, some "FRONTENAC", 43, -82, "t"⟩⟩
        .initial).2.isSome ↔
      crossingCondition (fun _ _ => 0) DEFAULT_CONFIG .initial
          ⟨some ⟨180, 43, -82, 0, 8, 511, 367⟩, none, ⟨367, some "FRONTENAC", 43, -82, "t"⟩⟩
          ⟨180, 43, -82, 0, 8, 511, 367⟩
        ∧ ¬cooldownSuppressed DEFAULT_CONFIG 1000 .initial
            (⟨some ⟨180, 43, -82, 0, 8, 511, 367⟩, none,
              ⟨367, some "FRONTENAC", 43, -82, "t"⟩⟩ : AISMessage).MetaData.MMSI)
    ∧ ((⟨180, 43, -82, 0, 8, 511, 367⟩ : PositionReport).Sog < 0.5 →
        (processMessage (fun _ _ => 0) DEFAULT_CONFIG 1000
          ⟨some ⟨180, 43, -82, 0, 8, 511, 367⟩, none, ⟨367, some "FRONTENAC", 43, -82, "t"⟩⟩
          .initial).2 = none) :=
  crossing_edge_trigger_spec.1 (fun _ _ => 0) DEFAULT_CONFIG 1000
    ⟨some ⟨180, 43, -82, 0, 8, 511, 367⟩, none, ⟨367, some "FRONTENAC", 43, -82, "t"⟩⟩
    ⟨180, 43, -82, 0, 8, 511, 367⟩ .initial rfl
    (by constructor
        · rintro ⟨h, -⟩
          norm_num at h
        · norm_num)

/-- **C2 witness.** The trace-level suppression instantiated: with a cooldown
record at `t = 500` and one report at `now = 1000` (inside the 30-minute
window), no event for the vessel is emitted and the record survives. -/
theorem cooldown_window_instance :
    (∀ e ∈ (runMessages (fun _ _ => 0) DEFAULT_CONFIG
        [(1000, ⟨some ⟨180, 43, -82, 0, 8, 511, 367⟩, none,
          ⟨367, some "FRONTENAC", 43, -82, "t"⟩⟩)]
        ⟨[], [(367, 500)]⟩).2, e.mmsi ≠ 367)
    ∧ alookup 367 (runMessages (fun _ _ => 0) DEFAULT_CONFIG
        [(1000, ⟨some ⟨180, 43, -82, 0, 8, 511, 367⟩, none,
          ⟨367, some "FRONTENAC", 43, -82, "t"⟩⟩)]
        ⟨[], [(367, 500)]⟩).1.notified = some 500 :=
  cooldown_window_spec.1 (fun _ _ => 0) DEFAULT_CONFIG ⟨[], [(367, 500)]⟩ 367 500
    [(1000, ⟨some ⟨180, 43, -82, 0, 8, 511, 367⟩, none,
      ⟨367, some "FRONTENAC", 43, -82, "t"⟩⟩)]
    rfl (by norm_num)
    (by intro p hp
        rcases List.mem_singleton.mp hp with rfl
        norm_num [DEFAULT_CONFIG])

/-- **C10 witness.** The invariant carried from the empty initial state
through a concrete position report, a static-data message and a cleanup
sweep. -/
theorem tracked_distance_consistency_instance :
    goodDetectorState (fun _ _ => 1)
      (runOps (fun _ _ => 1) DEFAULT_CONFIG
        [.message 1000 ⟨some ⟨180, 43, -82, 0, 8, 511, 367⟩, none,
            ⟨367, some "FRONTENAC", 43, -82, "t"⟩⟩,
          .message 2000 ⟨none, some ⟨none, some "SARNIA", none, none,
            some "FRONTENAC", some 70, none⟩, ⟨367, none, 0, 0, "t"⟩⟩,
          .cleanup 2000000]
        .initial) :=
  tracked_distance_consistency (fun _ _ => 1) DEFAULT_CONFIG
    [.message 1000 ⟨some ⟨180, 43, -82, 0, 8, 511, 367⟩, none,
        ⟨367, some "FRONTENAC", 43, -82, "t"⟩⟩,
      .message 2000 ⟨none, some ⟨none, some "SARNIA", none, none,
        some "FRONTENAC", some 70, none⟩, ⟨367, none, 0, 0, "t"⟩⟩,
      .cleanup 2000000]
    .initial
    (by intro p hp; simp [DetectorState.initial] at hp)

/-! ### The per-IP slot double release (`server.js`) -/

/-- A trace in which one admitted connection from IP 0 is relaying, a second
one from the same IP fails its first message — releasing its slot once in the
failure path and once more when its socket's `close` event fires — after
which five further connections from IP 0 are admitted. -/
def overadmissionTrace : List GatewayEvent :=
  [.connect 0, .goodFirstMessage 0,
   .connect 0, .badFirstMessage 1, .closeEvent 1,
   .connect 0, .goodFirstMessage 2,
   .connect 0, .goodFirstMessage 3,
   .connect 0, .goodFirstMessage 4,
   .connect 0, .goodFirstMessage 5,
   .connect 0, .goodFirstMessage 6]

/-- **C3 (bug evaluation).** Admission control does reject a 6th simultaneous
connection while the counter reads 5 — but after a failed first message the
slot is released twice (explicitly and again by the `close` handler), so the
per-IP counter drops to 5 while **six** connections from IP 0 are admitted
and relaying concurrently: the counter no longer equals the number of
admitted connections and the documented cap of 5 concurrent connections per
IP is breached. -/
theorem gateway_ip_slot_double_release :
    ((runGateway [.connect 0, .connect 0, .connect 0, .connect 0, .connect 0,
        .connect 0] .initial).conns.getD 5 ⟨0, .closed⟩).phase = .rejected
    ∧ admittedCount (runGateway [.connect 0, .connect 0, .connect 0,
        .connect 0, .connect 0, .connect 0] .initial) 0 = 5
    ∧ relayingCount (runGateway overadmissionTrace .initial) 0 = 6
    ∧ admittedCount (runGateway overadmissionTrace .initial) 0 = 6
    ∧ ipCount (runGateway overadmissionTrace .initial) 0 = 5 := by
  decide

end BridgeviewAIS
